import Mathlib

/-!
Shallow embedding of the EduBridge tuition-marketplace backend.

The document store is modelled as three lists of documents (tuitions,
applications, payments) kept in insertion order; MongoDB's `findOne` /
`updateOne` pick the first document matching the filter and `updateMany`
updates every matching document.  Status fields are raw strings, exactly as
in the source, because the generic status-setter endpoint accepts an
arbitrary string.  Timestamps (`new Date()`) are passed in as explicit
`Nat` parameters, and freshly generated ObjectIds as explicit id
parameters.  Each handler returns its HTTP outcome (`Except Err ...`)
together with the resulting store state; error outcomes leave the state
that the handler had produced so far (for these handlers: unchanged).
-/

namespace EduBridge

/-- Error taxonomy of the handlers (HTTP status classes). -/
inductive Err where
  | Unauthorized
  | Forbidden
  | BadRequest
  | NotFound
  | NotFoundOrForbidden
  | Conflict
  | InvalidStatus
  | PaymentNotCompleted
  | MetadataMissing
  | ServerError
  deriving DecidableEq, Repr

instance [DecidableEq ε] [DecidableEq α] : DecidableEq (Except ε α) := fun x y =>
  match x, y with
  | .ok a, .ok b =>
    if h : a = b then isTrue (by rw [h]) else isFalse (by intro hc; cases hc; exact h rfl)
  | .ok _, .error _ => isFalse (by intro hc; cases hc)
  | .error _, .ok _ => isFalse (by intro hc; cases hc)
  | .error e, .error f =>
    if h : e = f then isTrue (by rw [h]) else isFalse (by intro hc; cases hc; exact h rfl)

/-- A tuition post (collection `tuitions`). -/
structure Tuition where
  id : Nat
  studentId : Nat
  title : Option String := none
  classLevel : Option String := none
  subject : Option String := none
  location : Option String := none
  budget : Option String := none
  status : String
  postStatus : String
  salary : Option String := none
  selectedApplicationId : Option Nat := none
  selectedTutorId : Option Nat := none
  createdAt : Nat
  selectedAt : Option Nat := none
  paymentStatus : Option String := none
  paidAt : Option Nat := none
  deriving DecidableEq, Repr

/-- An application (collection `applications`). -/
structure Application where
  id : Nat
  tuitionId : Nat
  studentId : Nat
  tutorId : Nat
  applyStatus : String
  qualification : Option String := none
  experience : Option String := none
  expectedSalary : Option String := none
  createdAt : Nat
  selectedAt : Option Nat := none
  paymentStatus : Option String := none
  paidAt : Option Nat := none
  tuitionTitle : Option String := none
  studentName : Option String := none
  studentEmail : Option String := none
  salary : Option String := none
  subject : Option String := none
  location : Option String := none
  classLevel : Option String := none
  deriving DecidableEq, Repr

/-- A payment record (collection `payments`), keyed by `stripeSessionId`. -/
structure PaymentRecord where
  tuitionId : Nat
  applicationId : Nat
  tutorId : Option Nat := none
  studentId : Option Nat := none
  tuitionTitle : Option String := none
  studentName : Option String := none
  studentEmail : Option String := none
  amount : Option String := none
  tutorAmount : Option String := none
  adminFee : Option String := none
  status : String
  paidAt : Nat
  stripeSessionId : Nat
  deriving DecidableEq, Repr

/-- The provider's view of a checkout session, as returned by
`stripe.checkout.sessions.retrieve`: the payment status plus the opaque
metadata attached at checkout-creation time. -/
structure StripeSession where
  id : Nat
  payment_status : String
  md_tuitionId : Option Nat := none
  md_applicationId : Option Nat := none
  md_tutorId : Option Nat := none
  md_studentId : Option Nat := none
  md_tuitionTitle : Option String := none
  md_studentName : Option String := none
  md_studentEmail : Option String := none
  md_salary : Option String := none
  md_tutorAmount : Option String := none
  md_adminFee : Option String := none
  deriving DecidableEq, Repr

/-- The whole document store. -/
structure DB where
  tuitions : List Tuition
  applications : List Application
  payments : List PaymentRecord
  deriving DecidableEq, Repr

/-- Mongo `updateOne`: apply `f` to the first element satisfying `p`,
leave everything else untouched. -/
def updateFirst (p : α → Bool) (f : α → α) : List α → List α
  | [] => []
  | x :: xs => if p x then f x :: xs else x :: updateFirst p f xs

/-- Mongo `updateMany`: apply `f` to every element satisfying `p`. -/
def updateMany (p : α → Bool) (f : α → α) (l : List α) : List α :=
  l.map (fun x => if p x then f x else x)

/-- Mongo `deleteOne`: remove the first element satisfying `p`. -/
def eraseFirst (p : α → Bool) : List α → List α
  | [] => []
  | x :: xs => if p x then xs else x :: eraseFirst p xs

/-- Mongo `UpdateResult` (the part the handlers inspect / echo back). -/
structure UpdateResult where
  matchedCount : Nat
  deriving DecidableEq, Repr

/-- Request body fields read by `POST /tuitions` and `PATCH /tuitions/:id`
(absent JSON fields are `none`). -/
structure TuitionBody where
  title : Option String := none
  classLevel : Option String := none
  subject : Option String := none
  location : Option String := none
  budget : Option String := none
  deriving DecidableEq, Repr

/-- Request body fields read by `POST /applications/:id` and
`PATCH /application/:id`. -/
structure ApplicationBody where
  qualification : Option String := none
  experience : Option String := none
  expectedSalary : Option String := none
  deriving DecidableEq, Repr

/-- A store write issued by the select handler, in program order. -/
inductive WriteEvent where
  | tuitionWrite (tuitionId : Nat)
  | applicationWrite (applicationId : Nat)
  | applicationsFanout (tuitionId : Nat)
  deriving DecidableEq, Repr

/-- Outcome of the select handler: HTTP response, resulting store, and the
sequence of store writes it issued. -/
structure SelectOut where
  resp : Except Err Unit
  db : DB
  writes : List WriteEvent
  deriving Repr

/-- `POST /tuitions` (student only): insert a new post with `status=open`,
`postStatus=pending`, owner = caller. -/
def postTuitions (uid : Nat) (userType : String) (body : TuitionBody)
    (newId now : Nat) (s : DB) : Except Err Unit × DB :=
  if userType != "student" then (.error .Forbidden, s)
  else
    let t : Tuition :=
      { id := newId, studentId := uid, title := body.title,
        classLevel := body.classLevel, subject := body.subject,
        location := body.location, budget := body.budget,
        status := "open", postStatus := "pending", createdAt := now }
    (.ok (), { s with tuitions := s.tuitions ++ [t] })

/-- `PATCH /tuitions/:id` (student): conditional update keyed on
`(_id, studentId)`; `matchedCount = 0` is reported as 404
"Tuition not found or not yours". -/
def patchTuitions (uid : Nat) (userType : String) (id : Nat)
    (body : TuitionBody) (s : DB) : Except Err UpdateResult × DB :=
  if userType != "student" then (.error .Forbidden, s)
  else
    let matched := s.tuitions.any (fun t => t.id == id && t.studentId == uid)
    let tuitions := updateFirst (fun t => t.id == id && t.studentId == uid)
      (fun t => { t with title := body.title, classLevel := body.classLevel,
                         subject := body.subject, location := body.location,
                         budget := body.budget }) s.tuitions
    (if matched then .ok ⟨1⟩ else .error .NotFoundOrForbidden,
     { s with tuitions := tuitions })

/-- `DELETE /tuitions/:id` (student): conditional delete keyed on
`(_id, studentId)`; `deletedCount = 0` is reported as 404
"Tuition not found or not owned by this student". -/
def deleteTuitions (uid : Nat) (userType : String) (id : Nat) (s : DB) :
    Except Err Unit × DB :=
  if userType != "student" then (.error .Forbidden, s)
  else
    let matched := s.tuitions.any (fun t => t.id == id && t.studentId == uid)
    let tuitions := eraseFirst (fun t => t.id == id && t.studentId == uid) s.tuitions
    (if matched then .ok () else .error .NotFoundOrForbidden,
     { s with tuitions := tuitions })

/-- `PATCH /tuitions-status/:id` (admin): moderation of `postStatus`. -/
def patchTuitionsStatus (userType : String) (id : Nat)
    (postStatus : Option String) (s : DB) : Except Err UpdateResult × DB :=
  if userType != "admin" then (.error .Forbidden, s)
  else if !((postStatus == some "approved") || (postStatus == some "rejected")) then
    (.error .InvalidStatus, s)
  else
    let st := postStatus.getD ""
    let matched := s.tuitions.any (fun t => t.id == id)
    let tuitions := updateFirst (fun t => t.id == id)
      (fun t => { t with postStatus := st }) s.tuitions
    (if matched then .ok ⟨1⟩ else .error .NotFound, { s with tuitions := tuitions })

/-- `POST /applications/:id` (teacher): apply to a tuition.  Requires the
tuition to exist, and no existing application for `(tuitionId, tutorId)`
(else 409 Conflict).  Copies the listing's `studentId` onto the new
application and sets `applyStatus = "pending"`. -/
def postApplications (uid : Nat) (userType : String) (tuitionId : Nat)
    (body : ApplicationBody) (newId now : Nat) (s : DB) : Except Err Unit × DB :=
  if userType != "teacher" then (.error .Forbidden, s)
  else
    match s.tuitions.find? (fun t => t.id == tuitionId) with
    | none => (.error .NotFound, s)
    | some tuition =>
      if s.applications.any (fun a => a.tuitionId == tuitionId && a.tutorId == uid) then
        (.error .Conflict, s)
      else
        let a : Application :=
          { id := newId, tuitionId := tuitionId, studentId := tuition.studentId,
            tutorId := uid, applyStatus := "pending",
            qualification := body.qualification, experience := body.experience,
            expectedSalary := body.expectedSalary, createdAt := now }
        (.ok (), { s with applications := s.applications ++ [a] })

/-- `PATCH /applications/:id` (student): generic application-status setter.
Requires a truthy `applyStatus` in the body (undefined or empty string is
400), then runs an unconditional `$set` through the compound filter
`(_id, studentId = caller)` and echoes the raw update result — no
`matchedCount` check. -/
def patchApplications (uid : Nat) (userType : String) (id : Nat)
    (applyStatus : Option String) (s : DB) : Except Err UpdateResult × DB :=
  if userType != "student" then (.error .Forbidden, s)
  else if (applyStatus.getD "") == "" then (.error .BadRequest, s)
  else
    let st := applyStatus.getD ""
    let matched := s.applications.any (fun a => a.id == id && a.studentId == uid)
    let applications := updateFirst (fun a => a.id == id && a.studentId == uid)
      (fun a => { a with applyStatus := st }) s.applications
    (.ok ⟨if matched then 1 else 0⟩, { s with applications := applications })

/-- `PATCH /select-applications/:id` (student): look up the application via
`(_id, studentId = caller)` (404 if absent), then issue three writes in
program order: (1) update the parent tuition to `selected_pending_payment`
recording `selectedApplicationId` / `selectedTutorId` / `selectedAt`,
(2) update the chosen application to `selected_pending_payment`, (3) reject
every other still-`pending` application of the same tuition via one
`updateMany`. -/
def selectApplications (uid : Nat) (userType : String) (id : Nat) (now : Nat)
    (s : DB) : SelectOut :=
  if userType != "student" then ⟨.error .Forbidden, s, []⟩
  else
    match s.applications.find? (fun a => a.id == id && a.studentId == uid) with
    | none => ⟨.error .NotFound, s, []⟩
    | some selectedApplication =>
      let tuitionId := selectedApplication.tuitionId
      let tuitions := updateFirst (fun t => t.id == tuitionId && t.studentId == uid)
        (fun t => { t with status := "selected_pending_payment",
                           selectedApplicationId := some id,
                           selectedTutorId := some selectedApplication.tutorId,
                           selectedAt := some now }) s.tuitions
      let apps1 := updateFirst (fun a => a.id == id && a.studentId == uid)
        (fun a => { a with applyStatus := "selected_pending_payment",
                           selectedAt := some now }) s.applications
      let apps2 := updateMany
        (fun a => a.tuitionId == tuitionId && a.studentId == uid &&
                  a.applyStatus == "pending" && a.id != id)
        (fun a => { a with applyStatus := "rejected" }) apps1
      ⟨.ok (), { s with tuitions := tuitions, applications := apps2 },
       [.tuitionWrite tuitionId, .applicationWrite id, .applicationsFanout tuitionId]⟩

/-- `PATCH /application/:id` (teacher): tutor edits the content fields of
their own application via the compound filter `(_id, tutorId = caller)`;
`matchedCount = 0` is reported as 404 "Application not found or not yours". -/
def patchApplication (uid : Nat) (userType : String) (id : Nat)
    (body : ApplicationBody) (s : DB) : Except Err UpdateResult × DB :=
  if userType != "teacher" then (.error .Forbidden, s)
  else
    let matched := s.applications.any (fun a => a.id == id && a.tutorId == uid)
    let applications := updateFirst (fun a => a.id == id && a.tutorId == uid)
      (fun a => { a with qualification := body.qualification,
                         experience := body.experience,
                         expectedSalary := body.expectedSalary }) s.applications
    (if matched then .ok ⟨1⟩ else .error .NotFoundOrForbidden,
     { s with applications := applications })

/-- `DELETE /application/:id` (teacher): conditional delete keyed on
`(_id, tutorId)`; `deletedCount = 0` is reported as 404
"Application not found or not owned by this tutor". -/
def deleteApplication (uid : Nat) (userType : String) (id : Nat) (s : DB) :
    Except Err Unit × DB :=
  if userType != "teacher" then (.error .Forbidden, s)
  else
    let matched := s.applications.any (fun a => a.id == id && a.tutorId == uid)
    let applications := eraseFirst (fun a => a.id == id && a.tutorId == uid) s.applications
    (if matched then .ok () else .error .NotFoundOrForbidden,
     { s with applications := applications })

/-- `PATCH /payment-success` (provider-sourced): given the retrieved
checkout session, (a) reject non-`paid` sessions, (b) reject `paid`
sessions whose metadata lacks `tuitionId`/`applicationId`, then (c) upsert
a `PaymentRecord` keyed by `stripeSessionId` with `$setOnInsert` (never
overwritten once present), (d) `$set` the application to
`applyStatus=selected, paymentStatus=paid` copying display fields from the
current tuition snapshot, and (e) `$set` the tuition to
`status=selected, paymentStatus=paid`. -/
def paymentSuccess (session : StripeSession) (now : Nat) (s : DB) :
    Except Err Unit × DB :=
  if session.payment_status != "paid" then (.error .PaymentNotCompleted, s)
  else
    match session.md_tuitionId, session.md_applicationId with
    | some tuitionId, some applicationId =>
      let tuition := s.tuitions.find? (fun t => t.id == tuitionId)
      let appSet : Application → Application := fun a =>
        { a with tuitionTitle := session.md_tuitionTitle,
                 studentName := session.md_studentName,
                 studentEmail := session.md_studentEmail,
                 salary := session.md_salary,
                 subject := tuition.bind Tuition.subject,
                 location := tuition.bind Tuition.location,
                 classLevel := tuition.bind Tuition.classLevel,
                 applyStatus := "selected",
                 paymentStatus := some "paid",
                 paidAt := some now }
      let tuitionSet : Tuition → Tuition := fun t =>
        { t with salary := session.md_salary, status := "selected",
                 paymentStatus := some "paid", paidAt := some now }
      let paymentDoc : PaymentRecord :=
        { tuitionId := tuitionId, applicationId := applicationId,
          tutorId := session.md_tutorId, studentId := session.md_studentId,
          tuitionTitle := session.md_tuitionTitle,
          studentName := session.md_studentName,
          studentEmail := session.md_studentEmail,
          amount := session.md_salary, tutorAmount := session.md_tutorAmount,
          adminFee := session.md_adminFee, status := "paid", paidAt := now,
          stripeSessionId := session.id }
      let payments :=
        if s.payments.any (fun p => p.stripeSessionId == session.id) then s.payments
        else s.payments ++ [paymentDoc]
      let applications := updateFirst (fun a => a.id == applicationId) appSet s.applications
      let tuitions := updateFirst (fun t => t.id == tuitionId) tuitionSet s.tuitions
      (.ok (), { tuitions := tuitions, applications := applications, payments := payments })
    | _, _ => (.error .MetadataMissing, s)

/-! ### Helper lemmas about the store primitives -/

theorem length_updateFirst (p : α → Bool) (f : α → α) (l : List α) :
    (updateFirst p f l).length = l.length := by
  induction l with
  | nil => rfl
  | cons x xs ih => by_cases hx : p x <;> simp [updateFirst, hx, ih]

theorem length_updateMany (p : α → Bool) (f : α → α) (l : List α) :
    (updateMany p f l).length = l.length := by
  simp [updateMany]

theorem get?_updateMany (p : α → Bool) (f : α → α) (l : List α) (i : Nat) :
    (updateMany p f l).get? i = (l.get? i).map (fun x => if p x then f x else x) := by
  simp [updateMany]

theorem get?_updateFirst_of_neg (p : α → Bool) (f : α → α) (l : List α) (i : Nat)
    (a : α) (ha : l.get? i = some a) (hp : p a = false) :
    (updateFirst p f l).get? i = some a := by
  induction l generalizing i with
  | nil => simp at ha
  | cons x xs ih =>
    by_cases hx : p x
    · match i with
      | 0 =>
        simp at ha
        subst ha
        rw [hx] at hp
        cases hp
      | i + 1 => simpa [updateFirst, hx] using ha
    · have hx' : p x = false := by simpa using hx
      match i with
      | 0 => simpa [updateFirst, hx'] using ha
      | i + 1 =>
        simp only [updateFirst, hx', Bool.false_eq_true, if_false, List.get?]
        exact ih i (by simpa using ha)

theorem get?_updateFirst_cases (p : α → Bool) (f : α → α) (l : List α) (i : Nat)
    (a : α) (ha : l.get? i = some a) :
    (updateFirst p f l).get? i = some a ∨ (updateFirst p f l).get? i = some (f a) := by
  induction l generalizing i with
  | nil => simp at ha
  | cons x xs ih =>
    by_cases hx : p x
    · match i with
      | 0 =>
        right
        simp at ha
        subst ha
        simp [updateFirst, hx]
      | i + 1 => left; simpa [updateFirst, hx] using ha
    · have hx' : p x = false := by simpa using hx
      match i with
      | 0 => left; simpa [updateFirst, hx'] using ha
      | i + 1 =>
        simp only [updateFirst, hx', Bool.false_eq_true, if_false, List.get?]
        exact ih i (by simpa using ha)

theorem mem_updateFirst_of_neg (p : α → Bool) (f : α → α) (l : List α) (B : α)
    (hB : B ∈ l) (hpB : p B = false) : B ∈ updateFirst p f l := by
  induction l with
  | nil => cases hB
  | cons x xs ih =>
    by_cases hx : p x
    · rcases List.mem_cons.mp hB with rfl | hB'
      · rw [hx] at hpB; cases hpB
      · simp [updateFirst, hx, hB']
    · have hx' : p x = false := by simpa using hx
      rcases List.mem_cons.mp hB with rfl | hB'
      · simp [updateFirst, hx']
      · simp [updateFirst, hx', ih hB']

theorem mem_updateFirst_self (p : α → Bool) (f : α → α) (l : List α) (A : α)
    (hA : A ∈ l) (hpA : p A = true) (huniq : ∀ x ∈ l, p x = true → x = A) :
    f A ∈ updateFirst p f l := by
  induction l with
  | nil => cases hA
  | cons x xs ih =>
    by_cases hx : p x
    · have hxA : x = A := huniq x (List.mem_cons_self x xs) hx
      subst hxA
      simp [updateFirst, hx]
    · have hx' : p x = false := by simpa using hx
      rcases List.mem_cons.mp hA with rfl | hA'
      · rw [hpA] at hx'; cases hx'
      · have h2 := ih hA' (fun y hy hpy => huniq y (List.mem_cons_of_mem x hy) hpy)
        simp [updateFirst, hx', h2]

theorem find?_eq_of_unique (p : α → Bool) (l : List α) (A : α)
    (hA : A ∈ l) (hpA : p A = true) (huniq : ∀ x ∈ l, p x = true → x = A) :
    l.find? p = some A := by
  induction l with
  | nil => cases hA
  | cons x xs ih =>
    by_cases hx : p x
    · have hxA : x = A := huniq x (List.mem_cons_self x xs) hx
      subst hxA
      simp [List.find?_cons_of_pos, hx]
    · have hx' : p x = false := by simpa using hx
      rcases List.mem_cons.mp hA with rfl | hA'
      · rw [hpA] at hx'; cases hx'
      · have h2 := ih hA' (fun y hy hpy => huniq y (List.mem_cons_of_mem x hy) hpy)
        simp [List.find?_cons_of_neg, hx, h2]

theorem updateFirst_eq_of_none (p : α → Bool) (f : α → α) (l : List α)
    (h : ∀ x ∈ l, p x = false) : updateFirst p f l = l := by
  induction l with
  | nil => rfl
  | cons x xs ih =>
    have hx := h x (List.mem_cons_self x xs)
    simp [updateFirst, hx, ih (fun y hy => h y (List.mem_cons_of_mem x hy))]

theorem eraseFirst_eq_of_none (p : α → Bool) (l : List α)
    (h : ∀ x ∈ l, p x = false) : eraseFirst p l = l := by
  induction l with
  | nil => rfl
  | cons x xs ih =>
    have hx := h x (List.mem_cons_self x xs)
    simp [eraseFirst, hx, ih (fun y hy => h y (List.mem_cons_of_mem x hy))]

theorem any_eq_false_of_none (p : α → Bool) (l : List α)
    (h : ∀ x ∈ l, p x = false) : l.any p = false := by
  simp only [List.any_eq_false]
  intro x hx
  simp [h x hx]

theorem updateFirst_updateFirst (p : α → Bool) (f g : α → α) (l : List α)
    (hpres : ∀ a, p (g a) = p a) :
    updateFirst p f (updateFirst p g l) = updateFirst p (fun a => f (g a)) l := by
  induction l with
  | nil => rfl
  | cons x xs ih =>
    by_cases hx : p x
    · simp [updateFirst, hx, hpres]
    · simp [updateFirst, hx, ih]

theorem map_updateFirst_ext (c : α → β) (p : α → Bool) (f g : α → α) (l : List α)
    (h : ∀ a, c (f a) = c (g a)) :
    (updateFirst p f l).map c = (updateFirst p g l).map c := by
  induction l with
  | nil => rfl
  | cons x xs ih =>
    by_cases hx : p x
    · simp [updateFirst, hx, h]
    · simp [updateFirst, hx, ih]

theorem find?_updateFirst (p : α → Bool) (f : α → α) (l : List α)
    (hpres : ∀ a, p (f a) = p a) :
    (updateFirst p f l).find? p = (l.find? p).map f := by
  induction l with
  | nil => rfl
  | cons x xs ih =>
    by_cases hx : p x
    · simp [updateFirst, List.find?, hx, hpres]
    · simp [updateFirst, List.find?, hx, ih]

/-! ### Concrete fixtures used by the witnesses -/

/-- A concrete tuition post owned by student `10`. -/
def tuitionL : Tuition :=
  { id := 1, studentId := 10, status := "open", postStatus := "approved", createdAt := 0 }

/-- A concrete pending application by tutor `20` on `tuitionL`. -/
def appA : Application :=
  { id := 2, tuitionId := 1, studentId := 10, tutorId := 20,
    applyStatus := "pending", createdAt := 0 }

/-- A concrete pending application by tutor `21` on `tuitionL`. -/
def appB : Application :=
  { id := 3, tuitionId := 1, studentId := 10, tutorId := 21,
    applyStatus := "pending", createdAt := 0 }

/-- A concrete pending application by tutor `22` on `tuitionL`. -/
def appC : Application :=
  { id := 4, tuitionId := 1, studentId := 10, tutorId := 22,
    applyStatus := "pending", createdAt := 0 }

/-- A concrete store holding `tuitionL` and the three pending applications. -/
def dbABC : DB := { tuitions := [tuitionL], applications := [appA, appB, appC], payments := [] }

/-! ### C1 -/

/-- C1: in any store where application `A` and competitors `B`, `C` are all
`pending` and belong to listing `L`, and the caller is the student owning
`L` and `A`, selecting `A` succeeds and results in
`A.applyStatus = selected_pending_payment`, `B` and `C` `rejected`, and `L`
with `status = selected_pending_payment`,
`selectedApplicationId = A.id`, `selectedTutorId = A.tutorId`. -/
theorem C1_select_three_way_transition
    (s : DB) (uid now : Nat) (L : Tuition) (A B C : Application)
    (hL : L ∈ s.tuitions) (hLuid : L.studentId = uid)
    (hLuniq : ∀ t ∈ s.tuitions, t.id = L.id → t = L)
    (hA : A ∈ s.applications)
    (hAuniq : ∀ x ∈ s.applications, x.id = A.id → x = A)
    (hAt : A.tuitionId = L.id) (hAs : A.studentId = uid)
    (hB : B ∈ s.applications) (hBt : B.tuitionId = L.id) (hBs : B.studentId = uid)
    (hBp : B.applyStatus = "pending") (hBA : B.id ≠ A.id)
    (hC : C ∈ s.applications) (hCt : C.tuitionId = L.id) (hCs : C.studentId = uid)
    (hCp : C.applyStatus = "pending") (hCA : C.id ≠ A.id) :
    (selectApplications uid "student" A.id now s).resp = .ok () ∧
    { A with applyStatus := "selected_pending_payment", selectedAt := some now } ∈
      (selectApplications uid "student" A.id now s).db.applications ∧
    { B with applyStatus := "rejected" } ∈
      (selectApplications uid "student" A.id now s).db.applications ∧
    { C with applyStatus := "rejected" } ∈
      (selectApplications uid "student" A.id now s).db.applications ∧
    { L with status := "selected_pending_payment",
             selectedApplicationId := some A.id,
             selectedTutorId := some A.tutorId,
             selectedAt := some now } ∈
      (selectApplications uid "student" A.id now s).db.tuitions := by
  have hfind : s.applications.find? (fun a => a.id == A.id && a.studentId == uid) = some A := by
    apply find?_eq_of_unique _ _ _ hA (by simp [hAs])
    intro x hx hpx
    simp only [Bool.and_eq_true, beq_iff_eq] at hpx
    exact hAuniq x hx hpx.1
  simp only [selectApplications, bne_self_eq_false, Bool.false_eq_true, if_false, hfind]
  refine ⟨by trivial, ?_, ?_, ?_, ?_⟩
  · -- the chosen application
    have h1 : ({ A with applyStatus := "selected_pending_payment", selectedAt := some now } :
        Application) ∈ updateFirst (fun a => a.id == A.id && a.studentId == uid)
        (fun a => { a with applyStatus := "selected_pending_payment", selectedAt := some now })
        s.applications := by
      apply mem_updateFirst_self _ _ _ _ hA (by simp [hAs])
      intro x hx hpx
      simp only [Bool.and_eq_true, beq_iff_eq] at hpx
      exact hAuniq x hx hpx.1
    have h2 := List.mem_map_of_mem
      (fun a => if a.tuitionId == A.tuitionId && a.studentId == uid &&
                   (a.applyStatus == "pending") && (a.id != A.id)
                then { a with applyStatus := "rejected" } else a) h1
    simpa [updateMany] using h2
  · -- competitor B is rejected by the fan-out
    have h1 : B ∈ updateFirst (fun a => a.id == A.id && a.studentId == uid)
        (fun a => { a with applyStatus := "selected_pending_payment", selectedAt := some now })
        s.applications :=
      mem_updateFirst_of_neg _ _ _ _ hB (by simp [hBA])
    have h2 := List.mem_map_of_mem
      (fun a => if a.tuitionId == A.tuitionId && a.studentId == uid &&
                   (a.applyStatus == "pending") && (a.id != A.id)
                then { a with applyStatus := "rejected" } else a) h1
    have hBt' : B.tuitionId = A.tuitionId := hBt.trans hAt.symm
    simpa [updateMany, hBt', hBs, hBp, hBA] using h2
  · -- competitor C is rejected by the fan-out
    have h1 : C ∈ updateFirst (fun a => a.id == A.id && a.studentId == uid)
        (fun a => { a with applyStatus := "selected_pending_payment", selectedAt := some now })
        s.applications :=
      mem_updateFirst_of_neg _ _ _ _ hC (by simp [hCA])
    have h2 := List.mem_map_of_mem
      (fun a => if a.tuitionId == A.tuitionId && a.studentId == uid &&
                   (a.applyStatus == "pending") && (a.id != A.id)
                then { a with applyStatus := "rejected" } else a) h1
    have hCt' : C.tuitionId = A.tuitionId := hCt.trans hAt.symm
    simpa [updateMany, hCt', hCs, hCp, hCA] using h2
  · -- the listing
    apply mem_updateFirst_self _ _ _ _ hL (by simp [hAt, hLuid])
    intro x hx hpx
    simp only [Bool.and_eq_true, beq_iff_eq] at hpx
    exact hLuniq x hx (hpx.1.trans hAt)

/-- C1 witness: the theorem applied to the concrete store `dbABC`. -/
theorem C1_witness :
    (selectApplications 10 "student" 2 5 dbABC).resp = .ok () ∧
    { appA with applyStatus := "selected_pending_payment", selectedAt := some 5 } ∈
      (selectApplications 10 "student" 2 5 dbABC).db.applications ∧
    { appB with applyStatus := "rejected" } ∈
      (selectApplications 10 "student" 2 5 dbABC).db.applications ∧
    { appC with applyStatus := "rejected" } ∈
      (selectApplications 10 "student" 2 5 dbABC).db.applications ∧
    { tuitionL with status := "selected_pending_payment",
                    selectedApplicationId := some 2,
                    selectedTutorId := some 20,
                    selectedAt := some 5 } ∈
      (selectApplications 10 "student" 2 5 dbABC).db.tuitions :=
  C1_select_three_way_transition dbABC 10 5 tuitionL appA appB appC
    (by decide) (by decide) (by decide) (by decide) (by decide) (by decide)
    (by decide) (by decide) (by decide) (by decide) (by decide) (by decide)
    (by decide) (by decide) (by decide) (by decide) (by decide)

/-! ### C4 -/

/-- C4: the payment-success handler reports `PaymentNotCompleted` for a
session whose provider status is not `paid`, and `MetadataMissing` for a
`paid` session whose metadata lacks `tuitionId` or `applicationId`; in both
cases no document of the store is modified. -/
theorem C4_finalize_error_paths (session : StripeSession) (now : Nat) (s : DB) :
    (session.payment_status ≠ "paid" →
      paymentSuccess session now s = (.error .PaymentNotCompleted, s)) ∧
    (session.payment_status = "paid" →
      (session.md_tuitionId = none ∨ session.md_applicationId = none) →
      paymentSuccess session now s = (.error .MetadataMissing, s)) := by
  constructor
  · intro h
    simp [paymentSuccess, bne_iff_ne, h]
  · intro hp hmd
    rcases hmd with h1 | h1
    · simp [paymentSuccess, hp, h1]
    · cases ht : session.md_tuitionId <;> simp [paymentSuccess, hp, h1, ht]

/-- A concrete session the provider reports as not paid. -/
def sessUnpaid : StripeSession := { id := 7, payment_status := "unpaid" }

/-- A concrete paid session carrying no settlement metadata. -/
def sessPaidNoMd : StripeSession := { id := 8, payment_status := "paid" }

/-- C4 witness: both error paths exercised on concrete sessions. -/
theorem C4_witness :
    paymentSuccess sessUnpaid 0 dbABC = (.error .PaymentNotCompleted, dbABC) ∧
    paymentSuccess sessPaidNoMd 0 dbABC = (.error .MetadataMissing, dbABC) :=
  ⟨(C4_finalize_error_paths sessUnpaid 0 dbABC).1 (by decide),
   (C4_finalize_error_paths sessPaidNoMd 0 dbABC).2 (by decide) (by decide)⟩

/-! ### C5 -/

/-- C5: a teacher applying to an existing listing they have not yet applied
to succeeds; applying again to the same listing fails with `Conflict` and
leaves the store unchanged, and the store then contains exactly one
application for that `(tuitionId, tutorId)` pair. -/
theorem C5_apply_twice_conflict
    (s : DB) (uid tuitionId : Nat) (t : Tuition)
    (body1 body2 : ApplicationBody) (id1 id2 n1 n2 : Nat)
    (hfind : s.tuitions.find? (fun x => x.id == tuitionId) = some t)
    (hnone : s.applications.any (fun a => a.tuitionId == tuitionId && a.tutorId == uid) = false) :
    (postApplications uid "teacher" tuitionId body1 id1 n1 s).1 = .ok () ∧
    (postApplications uid "teacher" tuitionId body2 id2 n2
        (postApplications uid "teacher" tuitionId body1 id1 n1 s).2).1 = .error .Conflict ∧
    (postApplications uid "teacher" tuitionId body2 id2 n2
        (postApplications uid "teacher" tuitionId body1 id1 n1 s).2).2 =
      (postApplications uid "teacher" tuitionId body1 id1 n1 s).2 ∧
    ((postApplications uid "teacher" tuitionId body1 id1 n1 s).2.applications.countP
       (fun a => a.tuitionId == tuitionId && a.tutorId == uid)) = 1 := by
  have h0 : s.applications.countP
      (fun a => a.tuitionId == tuitionId && a.tutorId == uid) = 0 := by
    rw [List.countP_eq_zero]
    intro a ha
    have := List.any_eq_false.mp hnone a ha
    simpa using this
  refine ⟨?_, ?_, ?_, ?_⟩
  · simp [postApplications, hfind, hnone]
  · simp [postApplications, hfind, hnone, List.any_append]
  · simp [postApplications, hfind, hnone, List.any_append]
  · simp [postApplications, hfind, hnone, List.countP_append, h0]

/-- A concrete store holding only the listing `tuitionL`. -/
def dbL0 : DB := { tuitions := [tuitionL], applications := [], payments := [] }

/-- C5 witness: tutor `20` applies twice to listing `1` in `dbL0`. -/
theorem C5_witness :
    (postApplications 20 "teacher" 1 {} 2 0 dbL0).1 = .ok () ∧
    (postApplications 20 "teacher" 1 {} 3 1
        (postApplications 20 "teacher" 1 {} 2 0 dbL0).2).1 = .error .Conflict ∧
    (postApplications 20 "teacher" 1 {} 3 1
        (postApplications 20 "teacher" 1 {} 2 0 dbL0).2).2 =
      (postApplications 20 "teacher" 1 {} 2 0 dbL0).2 ∧
    ((postApplications 20 "teacher" 1 {} 2 0 dbL0).2.applications.countP
       (fun a => a.tuitionId == 1 && a.tutorId == 20)) = 1 :=
  C5_apply_twice_conflict dbL0 20 1 tuitionL {} {} 2 3 0 1 (by decide) (by decide)

/-! ### C6 -/

/-- C6: the select operation's fan-out modifies only applications of the
same listing as the selected application that are `pending` with a
different id.  Every competing application (different id) that is either
not `pending` (in particular one already in `selected_pending_payment`) or
that belongs to a different listing than the selected application is left
completely unchanged by select. -/
theorem C6_select_fanout_frame
    (s : DB) (uid id now : Nat) (ut : String) (i : Nat) (a selApp : Application)
    (ha : s.applications.get? i = some a)
    (hid : a.id ≠ id) :
    (a.applyStatus ≠ "pending" →
      (selectApplications uid ut id now s).db.applications.get? i = some a) ∧
    (s.applications.find? (fun x => x.id == id && x.studentId == uid) = some selApp →
      a.tuitionId ≠ selApp.tuitionId →
      (selectApplications uid ut id now s).db.applications.get? i = some a) := by
  constructor
  · intro hst
    by_cases hut : (ut != "student") = true
    · simp only [selectApplications, hut, if_true]
      exact ha
    · simp only [Bool.not_eq_true] at hut
      cases hfind : s.applications.find? (fun x => x.id == id && x.studentId == uid) with
      | none =>
        simp only [selectApplications, hut, Bool.false_eq_true, if_false, hfind]
        exact ha
      | some sel =>
        simp only [selectApplications, hut, Bool.false_eq_true, if_false, hfind]
        have h1 : (updateFirst (fun x => x.id == id && x.studentId == uid)
            (fun x => { x with applyStatus := "selected_pending_payment",
                               selectedAt := some now }) s.applications).get? i = some a :=
          get?_updateFirst_of_neg _ _ _ _ _ ha (by simp [hid])
        rw [get?_updateMany, h1]
        simp [hst]
  · intro hfind hlist
    by_cases hut : (ut != "student") = true
    · simp only [selectApplications, hut, if_true]
      exact ha
    · simp only [Bool.not_eq_true] at hut
      simp only [selectApplications, hut, Bool.false_eq_true, if_false, hfind]
      have h1 : (updateFirst (fun x => x.id == id && x.studentId == uid)
          (fun x => { x with applyStatus := "selected_pending_payment",
                             selectedAt := some now }) s.applications).get? i = some a :=
        get?_updateFirst_of_neg _ _ _ _ _ ha (by simp [hid])
      rw [get?_updateMany, h1]
      simp [hlist]

/-- A concrete application already in `selected_pending_payment` on
`tuitionL`. -/
def appSpp : Application :=
  { id := 5, tuitionId := 1, studentId := 10, tutorId := 23,
    applyStatus := "selected_pending_payment", createdAt := 0 }

/-- A second concrete listing of student `10`. -/
def tuitionL2 : Tuition :=
  { id := 6, studentId := 10, status := "open", postStatus := "approved", createdAt := 0 }

/-- A concrete `pending` application of student `10` on the other listing
`tuitionL2`. -/
def appOtherListing : Application :=
  { id := 7, tuitionId := 6, studentId := 10, tutorId := 25,
    applyStatus := "pending", createdAt := 0 }

/-- A concrete store with a `selected_pending_payment` competitor on the
selected listing and a `pending` application on a different listing. -/
def dbC6 : DB :=
  { tuitions := [tuitionL, tuitionL2],
    applications := [appA, appSpp, appOtherListing], payments := [] }

/-- C6 witness: selecting application `2` (on listing `1`) in `dbC6` leaves
both the `selected_pending_payment` competitor at position 1 and the
`pending` application of the other listing at position 2 untouched. -/
theorem C6_witness :
    (selectApplications 10 "student" 2 5 dbC6).db.applications.get? 1 = some appSpp ∧
    (selectApplications 10 "student" 2 5 dbC6).db.applications.get? 2 =
      some appOtherListing :=
  ⟨(C6_select_fanout_frame dbC6 10 2 5 "student" 1 appSpp appA
      (by decide) (by decide)).1 (by decide),
   (C6_select_fanout_frame dbC6 10 2 5 "student" 2 appOtherListing appA
      (by decide) (by decide)).2 (by decide) (by decide)⟩

/-! ### C9 -/

/-- C9: editing or deleting a tuition — or an application — whose target
exists but is owned by someone else produces exactly the same
`NotFoundOrForbidden` outcome, with the store untouched, as the run where
the target id does not exist at all: the two failure cases are
indistinguishable to the caller. -/
theorem C9_owner_indistinguishability
    (uid id : Nat) (body : TuitionBody) (abody : ApplicationBody)
    (s₁ s₂ s₃ s₄ : DB) (t : Tuition) (a : Application)
    (h₁ : t ∈ s₁.tuitions) (h₁id : t.id = id) (h₁own : t.studentId ≠ uid)
    (h₁all : ∀ x ∈ s₁.tuitions, x.id = id → x.studentId ≠ uid)
    (h₂ : ∀ x ∈ s₂.tuitions, x.id ≠ id)
    (h₃ : a ∈ s₃.applications) (h₃id : a.id = id) (h₃own : a.tutorId ≠ uid)
    (h₃all : ∀ x ∈ s₃.applications, x.id = id → x.tutorId ≠ uid)
    (h₄ : ∀ x ∈ s₄.applications, x.id ≠ id) :
    patchTuitions uid "student" id body s₁ = (.error .NotFoundOrForbidden, s₁) ∧
    patchTuitions uid "student" id body s₂ = (.error .NotFoundOrForbidden, s₂) ∧
    deleteTuitions uid "student" id s₁ = (.error .NotFoundOrForbidden, s₁) ∧
    deleteTuitions uid "student" id s₂ = (.error .NotFoundOrForbidden, s₂) ∧
    patchApplication uid "teacher" id abody s₃ = (.error .NotFoundOrForbidden, s₃) ∧
    patchApplication uid "teacher" id abody s₄ = (.error .NotFoundOrForbidden, s₄) ∧
    deleteApplication uid "teacher" id s₃ = (.error .NotFoundOrForbidden, s₃) ∧
    deleteApplication uid "teacher" id s₄ = (.error .NotFoundOrForbidden, s₄) := by
  have k₁ : ∀ x ∈ s₁.tuitions, (x.id == id && x.studentId == uid) = false := by
    intro x hx
    by_cases hxid : x.id = id
    · simp [hxid, h₁all x hx hxid]
    · simp [hxid]
  have k₂ : ∀ x ∈ s₂.tuitions, (x.id == id && x.studentId == uid) = false := by
    intro x hx
    simp [h₂ x hx]
  have k₃ : ∀ x ∈ s₃.applications, (x.id == id && x.tutorId == uid) = false := by
    intro x hx
    by_cases hxid : x.id = id
    · simp [hxid, h₃all x hx hxid]
    · simp [hxid]
  have k₄ : ∀ x ∈ s₄.applications, (x.id == id && x.tutorId == uid) = false := by
    intro x hx
    simp [h₄ x hx]
  refine ⟨?_, ?_, ?_, ?_, ?_, ?_, ?_, ?_⟩
  · simp [patchTuitions, any_eq_false_of_none _ _ k₁, updateFirst_eq_of_none _ _ _ k₁]
  · simp [patchTuitions, any_eq_false_of_none _ _ k₂, updateFirst_eq_of_none _ _ _ k₂]
  · simp [deleteTuitions, any_eq_false_of_none _ _ k₁, eraseFirst_eq_of_none _ _ k₁]
  · simp [deleteTuitions, any_eq_false_of_none _ _ k₂, eraseFirst_eq_of_none _ _ k₂]
  · simp [patchApplication, any_eq_false_of_none _ _ k₃, updateFirst_eq_of_none _ _ _ k₃]
  · simp [patchApplication, any_eq_false_of_none _ _ k₄, updateFirst_eq_of_none _ _ _ k₄]
  · simp [deleteApplication, any_eq_false_of_none _ _ k₃, eraseFirst_eq_of_none _ _ k₃]
  · simp [deleteApplication, any_eq_false_of_none _ _ k₄, eraseFirst_eq_of_none _ _ k₄]

/-- A concrete tuition with id `1` owned by a different student (`99`). -/
def tuitionOther : Tuition :=
  { id := 1, studentId := 99, status := "open", postStatus := "pending", createdAt := 0 }

/-- A concrete application with id `1` owned by a different tutor (`99`). -/
def appOther : Application :=
  { id := 1, tuitionId := 1, studentId := 10, tutorId := 99,
    applyStatus := "pending", createdAt := 0 }

/-- The empty store. -/
def dbEmpty : DB := { tuitions := [], applications := [], payments := [] }

/-- A store whose only tuition with id `1` is owned by someone else. -/
def dbForeignTuition : DB := { tuitions := [tuitionOther], applications := [], payments := [] }

/-- A store whose only application with id `1` is owned by someone else. -/
def dbForeignApp : DB := { tuitions := [], applications := [appOther], payments := [] }

/-- C9 witness: caller `10`, target id `1`, non-owned targets vs empty store. -/
theorem C9_witness :
    patchTuitions 10 "student" 1 {} dbForeignTuition =
      (.error .NotFoundOrForbidden, dbForeignTuition) ∧
    patchTuitions 10 "student" 1 {} dbEmpty = (.error .NotFoundOrForbidden, dbEmpty) ∧
    deleteTuitions 10 "student" 1 dbForeignTuition =
      (.error .NotFoundOrForbidden, dbForeignTuition) ∧
    deleteTuitions 10 "student" 1 dbEmpty = (.error .NotFoundOrForbidden, dbEmpty) ∧
    patchApplication 10 "teacher" 1 {} dbForeignApp =
      (.error .NotFoundOrForbidden, dbForeignApp) ∧
    patchApplication 10 "teacher" 1 {} dbEmpty = (.error .NotFoundOrForbidden, dbEmpty) ∧
    deleteApplication 10 "teacher" 1 dbForeignApp =
      (.error .NotFoundOrForbidden, dbForeignApp) ∧
    deleteApplication 10 "teacher" 1 dbEmpty = (.error .NotFoundOrForbidden, dbEmpty) :=
  C9_owner_indistinguishability 10 1 {} {} dbForeignTuition dbEmpty dbForeignApp dbEmpty
    tuitionOther appOther (by decide) (by decide) (by decide) (by decide) (by decide)
    (by decide) (by decide) (by decide) (by decide) (by decide)

/-! ### C10 -/

/-- C10: the generic application-status setter never modifies an
application whose `studentId` differs from the caller; when nothing matches
the `(id, caller)` compound filter it leaves the store unchanged yet still
reports success with a zero-match update result — unlike the tutor
edit/delete endpoints, which report `NotFoundOrForbidden` on the same
missed compound match. -/
theorem C10_status_setter_scope
    (uid id : Nat) (st : Option String) (abody : ApplicationBody) (s : DB) :
    (∀ i a, s.applications.get? i = some a → a.studentId ≠ uid →
        (patchApplications uid "student" id st s).2.applications.get? i = some a) ∧
    ((∀ x ∈ s.applications, ¬(x.id = id ∧ x.studentId = uid)) → (st.getD "") ≠ "" →
        patchApplications uid "student" id st s = (.ok ⟨0⟩, s)) ∧
    ((∀ x ∈ s.applications, ¬(x.id = id ∧ x.tutorId = uid)) →
        patchApplication uid "teacher" id abody s = (.error .NotFoundOrForbidden, s)) ∧
    ((∀ x ∈ s.applications, ¬(x.id = id ∧ x.tutorId = uid)) →
        deleteApplication uid "teacher" id s = (.error .NotFoundOrForbidden, s)) := by
  refine ⟨?_, ?_, ?_, ?_⟩
  · intro i a ha hstud
    by_cases hbad : ((st.getD "") == "") = true
    · simp only [patchApplications, bne_self_eq_false, Bool.false_eq_true, if_false, hbad,
        if_true]
      exact ha
    · simp only [patchApplications, bne_self_eq_false, Bool.false_eq_true, if_false, hbad]
      exact get?_updateFirst_of_neg _ _ _ _ _ ha (by simp [hstud])
  · intro h hne
    have k : ∀ x ∈ s.applications, (x.id == id && x.studentId == uid) = false := by
      intro x hx
      have hx2 := h x hx
      by_cases h1 : x.id = id
      · have h2 : x.studentId ≠ uid := fun hc => hx2 ⟨h1, hc⟩
        simp [h1, h2]
      · simp [h1]
    have hbad : ((st.getD "") == "") = false := by simpa using hne
    simp [patchApplications, hbad, any_eq_false_of_none _ _ k,
      updateFirst_eq_of_none _ _ _ k]
  · intro h
    have k : ∀ x ∈ s.applications, (x.id == id && x.tutorId == uid) = false := by
      intro x hx
      have hx2 := h x hx
      by_cases h1 : x.id = id
      · have h2 : x.tutorId ≠ uid := fun hc => hx2 ⟨h1, hc⟩
        simp [h1, h2]
      · simp [h1]
    simp [patchApplication, any_eq_false_of_none _ _ k, updateFirst_eq_of_none _ _ _ k]
  · intro h
    have k : ∀ x ∈ s.applications, (x.id == id && x.tutorId == uid) = false := by
      intro x hx
      have hx2 := h x hx
      by_cases h1 : x.id = id
      · have h2 : x.tutorId ≠ uid := fun hc => hx2 ⟨h1, hc⟩
        simp [h1, h2]
      · simp [h1]
    simp [deleteApplication, any_eq_false_of_none _ _ k, eraseFirst_eq_of_none _ _ k]

/-- A concrete application owned (as student and tutor) by user `99`. -/
def appForeign : Application :=
  { id := 1, tuitionId := 1, studentId := 99, tutorId := 99,
    applyStatus := "pending", createdAt := 0 }

/-- A store whose only application belongs to user `99`. -/
def dbForeign : DB := { tuitions := [], applications := [appForeign], payments := [] }

/-- C10 witness: caller `10` targets application id `1` of user `99`. -/
theorem C10_witness :
    (patchApplications 10 "student" 1 (some "selected") dbForeign).2.applications.get? 0 =
      some appForeign ∧
    patchApplications 10 "student" 1 (some "selected") dbForeign = (.ok ⟨0⟩, dbForeign) ∧
    patchApplication 10 "teacher" 1 {} dbForeign = (.error .NotFoundOrForbidden, dbForeign) ∧
    deleteApplication 10 "teacher" 1 dbForeign = (.error .NotFoundOrForbidden, dbForeign) :=
  ⟨(C10_status_setter_scope 10 1 (some "selected") {} dbForeign).1 0 appForeign
      (by decide) (by decide),
   (C10_status_setter_scope 10 1 (some "selected") {} dbForeign).2.1
      (by decide) (by decide),
   (C10_status_setter_scope 10 1 (some "selected") {} dbForeign).2.2.1 (by decide),
   (C10_status_setter_scope 10 1 (some "selected") {} dbForeign).2.2.2 (by decide)⟩

/-! ### C8 -/

/-- C8 counterexample: at the concrete store `dbABC` the select handler's
write sequence places the listing's update strictly before the chosen
application's update, so the claim that the chosen application's update
precedes the listing's update is false. -/
theorem C8_counterexample :
    ¬ ((selectApplications 10 "student" 2 5 dbABC).writes.findIdx
         (fun e => e == WriteEvent.applicationWrite 2) <
       (selectApplications 10 "student" 2 5 dbABC).writes.findIdx
         (fun e => e == WriteEvent.tuitionWrite 1)) := by
  decide

/-- C8 (amended): on a successful select the handler issues its writes in
the order: (1) the listing update, (2) the chosen application's update,
(3) the fan-out rejection of other pending applications. -/
theorem C8_select_write_order
    (s : DB) (uid id now : Nat) (A : Application)
    (hfind : s.applications.find? (fun a => a.id == id && a.studentId == uid) = some A) :
    (selectApplications uid "student" id now s).writes =
      [.tuitionWrite A.tuitionId, .applicationWrite id, .applicationsFanout A.tuitionId] := by
  simp [selectApplications, hfind]

/-- C8 witness: the amended write order at the concrete store `dbABC`. -/
theorem C8_witness :
    (selectApplications 10 "student" 2 5 dbABC).writes =
      [.tuitionWrite 1, .applicationWrite 2, .applicationsFanout 1] :=
  C8_select_write_order dbABC 10 2 5 appA (by decide)

/-! ### C7 -/

/-- A concrete application already in terminal status `selected`. -/
def appSelected : Application :=
  { id := 2, tuitionId := 1, studentId := 10, tutorId := 20,
    applyStatus := "selected", createdAt := 0 }

/-- A concrete pending application with id `5` on `tuitionL`. -/
def appPend5 : Application :=
  { id := 5, tuitionId := 1, studentId := 10, tutorId := 24,
    applyStatus := "pending", createdAt := 0 }

/-- A store holding `appSelected` and the pending `appPend5`. -/
def dbSelected : DB :=
  { tuitions := [tuitionL], applications := [appSelected, appPend5], payments := [] }

/-- C7 counterexample: `selected` is not terminal — the generic status
setter, invoked by the owning student, moves a `selected` application back
to `pending`. -/
theorem C7_counterexample :
    appSelected.applyStatus = "selected" ∧
    (patchApplications 10 "student" 2 (some "pending") dbSelected).1 = .ok ⟨1⟩ ∧
    (patchApplications 10 "student" 2 (some "pending") dbSelected).2.applications =
      [{ appSelected with applyStatus := "pending" }, appPend5] := by
  decide

/-- C7 (amended): an application whose `applyStatus` is `selected` or
`rejected` keeps that document (hence that status) under every select
targeting a different application id, every apply, and every payment
finalization whose metadata names a different application id; a tutor
content edit keeps its `applyStatus`.  (The generic status setter, a select
naming the application itself, or a finalization naming it can still
overwrite the status, so these states are not terminal.) -/
theorem C7_selected_rejected_preserved
    (s : DB) (uid id now : Nat) (ut : String) (i : Nat) (a : Application)
    (uid2 : Nat) (ut2 : String) (tid : Nat) (body : ApplicationBody) (newId n : Nat)
    (session : StripeSession)
    (ha : s.applications.get? i = some a)
    (hterm : a.applyStatus = "selected" ∨ a.applyStatus = "rejected") :
    (a.id ≠ id →
      (selectApplications uid ut id now s).db.applications.get? i = some a) ∧
    (postApplications uid2 ut2 tid body newId n s).2.applications.get? i = some a ∧
    (∃ b, (patchApplication uid2 ut2 id body s).2.applications.get? i = some b ∧
          b.applyStatus = a.applyStatus) ∧
    (session.md_applicationId ≠ some a.id →
      (paymentSuccess session now s).2.applications.get? i = some a) := by
  have hnp : a.applyStatus ≠ "pending" := by
    rcases hterm with h | h <;> rw [h] <;> decide
  refine ⟨?_, ?_, ?_, ?_⟩
  · -- select targeting a different application
    intro hid
    by_cases hut : (ut != "student") = true
    · simp only [selectApplications, hut, if_true]
      exact ha
    · simp only [Bool.not_eq_true] at hut
      cases hfind : s.applications.find? (fun x => x.id == id && x.studentId == uid) with
      | none =>
        simp only [selectApplications, hut, Bool.false_eq_true, if_false, hfind]
        exact ha
      | some selApp =>
        simp only [selectApplications, hut, Bool.false_eq_true, if_false, hfind]
        have h1 : (updateFirst (fun x => x.id == id && x.studentId == uid)
            (fun x => { x with applyStatus := "selected_pending_payment",
                               selectedAt := some now }) s.applications).get? i = some a :=
          get?_updateFirst_of_neg _ _ _ _ _ ha (by simp [hid])
        rw [get?_updateMany, h1]
        simp [hnp]
  · -- apply never rewrites an existing application
    obtain ⟨hi, -⟩ := List.get?_eq_some.mp ha
    by_cases hut : (ut2 != "teacher") = true
    · simp only [postApplications, hut, if_true]
      exact ha
    · simp only [Bool.not_eq_true] at hut
      cases hfind : s.tuitions.find? (fun t => t.id == tid) with
      | none =>
        simp only [postApplications, hut, Bool.false_eq_true, if_false, hfind]
        exact ha
      | some t =>
        by_cases hex : s.applications.any (fun x => x.tuitionId == tid && x.tutorId == uid2)
        · simp only [postApplications, hut, Bool.false_eq_true, if_false, hfind, hex, if_true]
          exact ha
        · have hex' : s.applications.any
              (fun x => x.tuitionId == tid && x.tutorId == uid2) = false := by
            simpa using hex
          simp only [postApplications, hut, Bool.false_eq_true, if_false, hfind, hex']
          rw [List.get?_append hi]
          exact ha
  · -- tutor content edits keep applyStatus
    by_cases hut : (ut2 != "teacher") = true
    · exact ⟨a, by simp only [patchApplication, hut, if_true]; exact ha, rfl⟩
    · simp only [Bool.not_eq_true] at hut
      simp only [patchApplication, hut, Bool.false_eq_true, if_false]
      rcases get?_updateFirst_cases (fun x => x.id == id && x.tutorId == uid2)
          (fun x => { x with qualification := body.qualification,
                             experience := body.experience,
                             expectedSalary := body.expectedSalary })
          s.applications i a ha with h | h
      · exact ⟨a, h, rfl⟩
      · exact ⟨_, h, rfl⟩
  · -- finalize naming a different application
    intro hne
    by_cases hps : (session.payment_status != "paid") = true
    · simp only [paymentSuccess, hps, if_true]
      exact ha
    · simp only [Bool.not_eq_true] at hps
      cases htid : session.md_tuitionId with
      | none =>
        simp only [paymentSuccess, hps, Bool.false_eq_true, if_false, htid]
        cases session.md_applicationId <;> exact ha
      | some tid2 =>
        cases haid : session.md_applicationId with
        | none =>
          simp only [paymentSuccess, hps, Bool.false_eq_true, if_false, htid, haid]
          exact ha
        | some aid =>
          have hne2 : aid ≠ a.id := fun hc => hne (by rw [haid, hc])
          simp only [paymentSuccess, hps, Bool.false_eq_true, if_false, htid, haid]
          exact get?_updateFirst_of_neg _ _ _ _ _ ha
            (by simp; intro hc; exact hne2 hc.symm)

/-- C7 witness: the amended preservation statements at a concrete store
holding a `selected` application, against a (successful) select of a
different application, an apply, a tutor edit, and a finalize naming a
different application. -/
theorem C7_witness :
    (selectApplications 10 "student" 5 0 dbSelected).db.applications.get? 0 =
      some appSelected ∧
    (postApplications 21 "teacher" 1 {} 9 0 dbSelected).2.applications.get? 0 =
      some appSelected ∧
    (∃ b, (patchApplication 21 "teacher" 5 {} dbSelected).2.applications.get? 0 = some b ∧
          b.applyStatus = appSelected.applyStatus) ∧
    (paymentSuccess sessPaidNoMd 0 dbSelected).2.applications.get? 0 = some appSelected := by
  have h := C7_selected_rejected_preserved dbSelected 10 5 0 "student" 0 appSelected
    21 "teacher" 1 {} 9 0 sessPaidNoMd (by decide) (by decide)
  exact ⟨h.1 (by decide), h.2.1, h.2.2.1, h.2.2.2 (by decide)⟩

/-! ### C2 -/

/-- A concrete paid session whose metadata names tuition `1` and
application `2`. -/
def sessPaid : StripeSession :=
  { id := 9, payment_status := "paid", md_tuitionId := some 1,
    md_applicationId := some 2, md_tutorId := some 20, md_studentId := some 10,
    md_tuitionTitle := some "Math tutor", md_studentName := some "S",
    md_studentEmail := some "s@x.y", md_salary := some "5000",
    md_tutorAmount := some "4500", md_adminFee := some "500" }

/-- C2 counterexample: delivering the same paid callback twice, at times 0
and 1, does not leave the listing and application in a state identical to a
single delivery — the `paidAt` timestamps are overwritten by the second
delivery. -/
theorem C2_counterexample :
    (paymentSuccess sessPaid 1 (paymentSuccess sessPaid 0 dbABC).2).2 ≠
      (paymentSuccess sessPaid 0 dbABC).2 := by
  decide

/-- Erase an application's `paidAt` stamp (state comparison modulo the
delivery timestamp). -/
def clearAppPaidAt (a : Application) : Application := { a with paidAt := none }

/-- Erase a tuition's `paidAt` stamp. -/
def clearTuitionPaidAt (t : Tuition) : Tuition := { t with paidAt := none }

/-- C2 (amended): delivering the same paid callback twice inserts exactly
one `PaymentRecord` keyed by the session id (the second delivery leaves the
payments collection unchanged), and the listing and application end in the
same final state after one or two deliveries except for their `paidAt`
timestamps, which are overwritten with the latest delivery time. -/
theorem C2_finalize_idempotent_modulo_paidAt
    (session : StripeSession) (s : DB) (t1 t2 tid aid : Nat)
    (hp : session.payment_status = "paid")
    (htid : session.md_tuitionId = some tid)
    (haid : session.md_applicationId = some aid)
    (hfresh : s.payments.any (fun p => p.stripeSessionId == session.id) = false) :
    (paymentSuccess session t1 s).1 = .ok () ∧
    (paymentSuccess session t2 (paymentSuccess session t1 s).2).1 = .ok () ∧
    (paymentSuccess session t2 (paymentSuccess session t1 s).2).2.payments =
      (paymentSuccess session t1 s).2.payments ∧
    (paymentSuccess session t1 s).2.payments.countP
      (fun p => p.stripeSessionId == session.id) = 1 ∧
    (paymentSuccess session t2 (paymentSuccess session t1 s).2).2.applications.map
      clearAppPaidAt = (paymentSuccess session t1 s).2.applications.map clearAppPaidAt ∧
    (paymentSuccess session t2 (paymentSuccess session t1 s).2).2.tuitions.map
      clearTuitionPaidAt = (paymentSuccess session t1 s).2.tuitions.map clearTuitionPaidAt := by
  have hps : (session.payment_status != "paid") = false := by simp [hp]
  have h0 : s.payments.countP (fun p => p.stripeSessionId == session.id) = 0 := by
    rw [List.countP_eq_zero]
    intro p hp2
    have := List.any_eq_false.mp hfresh p hp2
    simpa using this
  refine ⟨?_, ?_, ?_, ?_, ?_, ?_⟩
  · simp only [paymentSuccess, hps, Bool.false_eq_true, if_false, htid, haid, hfresh]
  · simp only [paymentSuccess, hps, Bool.false_eq_true, if_false, htid, haid, hfresh]
  · simp only [paymentSuccess, hps, Bool.false_eq_true, if_false, htid, haid, hfresh]
    simp [List.any_append]
  · simp only [paymentSuccess, hps, Bool.false_eq_true, if_false, htid, haid, hfresh]
    simp [List.countP_append, h0]
  · simp only [paymentSuccess, hps, Bool.false_eq_true, if_false, htid, haid, hfresh]
    rw [updateFirst_updateFirst _ _ _ _ (by intro a; simp)]
    apply map_updateFirst_ext
    intro a
    rw [find?_updateFirst _ _ _ (by intro t; simp)]
    cases s.tuitions.find? (fun t => t.id == tid) <;> simp [clearAppPaidAt]
  · simp only [paymentSuccess, hps, Bool.false_eq_true, if_false, htid, haid, hfresh]
    rw [updateFirst_updateFirst _ _ _ _ (by intro t; simp)]
    apply map_updateFirst_ext
    intro t
    simp [clearTuitionPaidAt]

/-- C2 witness: the amended idempotence at the concrete paid session
`sessPaid` over the concrete store `dbABC`, delivered at times 0 and 1. -/
theorem C2_witness :
    (paymentSuccess sessPaid 0 dbABC).1 = .ok () ∧
    (paymentSuccess sessPaid 1 (paymentSuccess sessPaid 0 dbABC).2).1 = .ok () ∧
    (paymentSuccess sessPaid 1 (paymentSuccess sessPaid 0 dbABC).2).2.payments =
      (paymentSuccess sessPaid 0 dbABC).2.payments ∧
    (paymentSuccess sessPaid 0 dbABC).2.payments.countP
      (fun p => p.stripeSessionId == sessPaid.id) = 1 ∧
    (paymentSuccess sessPaid 1 (paymentSuccess sessPaid 0 dbABC).2).2.applications.map
      clearAppPaidAt = (paymentSuccess sessPaid 0 dbABC).2.applications.map clearAppPaidAt ∧
    (paymentSuccess sessPaid 1 (paymentSuccess sessPaid 0 dbABC).2).2.tuitions.map
      clearTuitionPaidAt = (paymentSuccess sessPaid 0 dbABC).2.tuitions.map clearTuitionPaidAt :=
  C2_finalize_idempotent_modulo_paidAt sessPaid dbABC 0 1 1 2
    (by decide) (by decide) (by decide) (by decide)

/-! ### C3 -/

/-- Is this `applyStatus` one of the two "selected" states? -/
def inSelectedSet (st : String) : Bool :=
  st == "selected_pending_payment" || st == "selected"

/-- The claimed store invariant: every listing with `selectedApplicationId`
set has exactly one application (by `tuitionId`) in
`{selected_pending_payment, selected}`. -/
def selectionInvariant (s : DB) : Bool :=
  s.tuitions.all (fun t =>
    !t.selectedApplicationId.isSome ||
    (s.applications.countP
        (fun a => a.tuitionId == t.id && inSelectedSet a.applyStatus) == 1))

/-- The store reached from empty by: student 10 posts tuition 1, tutors 20
and 21 apply (applications 2 and 3), student 10 selects application 2. -/
def dbAfterSelect : DB :=
  (selectApplications 10 "student" 2 0
    (postApplications 21 "teacher" 1 {} 3 0
      (postApplications 20 "teacher" 1 {} 2 0
        (postTuitions 10 "student" {} 1 0 dbEmpty).2).2).2).db

/-- `dbAfterSelect` after the owning student forces the rejected
application 3 to `selected_pending_payment` through the generic status
setter. -/
def dbAfterOverride : DB :=
  (patchApplications 10 "student" 3 (some "selected_pending_payment") dbAfterSelect).2

/-- C3 counterexample: the invariant holds in the reachable store
`dbAfterSelect`, yet one further operation of the system — the generic
application-status setter — yields a store with two
`selected_pending_payment` applications on listing 1, so not every
operation preserves the invariant. -/
theorem C3_counterexample :
    selectionInvariant dbAfterSelect = true ∧
    selectionInvariant dbAfterOverride = false := by
  decide

theorem updateMany_cons (p : α → Bool) (f : α → α) (x : α) (xs : List α) :
    updateMany p f (x :: xs) = (if p x then f x else x) :: updateMany p f xs := rfl

theorem updateFirst_cons_pos (p : α → Bool) (f : α → α) (x : α) (xs : List α)
    (h : p x = true) : updateFirst p f (x :: xs) = f x :: xs := by
  simp [updateFirst, h]

theorem updateFirst_cons_neg (p : α → Bool) (f : α → α) (x : α) (xs : List α)
    (h : p x = false) : updateFirst p f (x :: xs) = x :: updateFirst p f xs := by
  simp [updateFirst, h]

/-- Fan-out count lemma: if every application of listing `tid` in `l` is
`pending` and owned by `uid`, then after the reject-others `updateMany`
none of them is in a selected state. -/
theorem c3_count_zero (tid uid selId : Nat) (l : List Application)
    (hall : ∀ a ∈ l, a.tuitionId = tid → a.applyStatus = "pending" ∧ a.studentId = uid) :
    (updateMany (fun a => a.tuitionId == tid && a.studentId == uid &&
        (a.applyStatus == "pending") && (a.id != selId))
      (fun a => { a with applyStatus := "rejected" }) l).countP
      (fun a => a.tuitionId == tid && inSelectedSet a.applyStatus) = 0 := by
  induction l with
  | nil => rfl
  | cons x xs ih =>
    have ih' := ih (fun a ha h => hall a (List.mem_cons_of_mem _ ha) h)
    rw [updateMany_cons, List.countP_cons, ih']
    by_cases hxt : x.tuitionId = tid
    · obtain ⟨hxp, hxs⟩ := hall x (List.mem_cons_self _ _) hxt
      by_cases hxi : x.id = selId
      · simp [hxt, hxp, hxs, hxi, inSelectedSet]
      · simp [hxt, hxp, hxs, hxi, inSelectedSet]
    · simp [hxt]

/-- Core count lemma for the select transition: from an all-`pending`
application list for listing `tid`, marking `A` selected and rejecting the
other pending ones leaves exactly one application of `tid` in a selected
state. -/
theorem c3_count_main (tid uid now : Nat) (A : Application) (l : List Application)
    (hall : ∀ a ∈ l, a.tuitionId = tid → a.applyStatus = "pending" ∧ a.studentId = uid)
    (huniq : ∀ x ∈ l, x.id = A.id → x = A)
    (hA : A ∈ l) (hAt : A.tuitionId = tid) (hAs : A.studentId = uid) :
    ((updateMany (fun a => a.tuitionId == tid && a.studentId == uid &&
         (a.applyStatus == "pending") && (a.id != A.id))
       (fun a => { a with applyStatus := "rejected" })
       (updateFirst (fun a => a.id == A.id && a.studentId == uid)
         (fun a => { a with applyStatus := "selected_pending_payment",
                            selectedAt := some now })
         l)).countP
       (fun a => a.tuitionId == tid && inSelectedSet a.applyStatus)) = 1 := by
  induction l with
  | nil => cases hA
  | cons x xs ih =>
    by_cases hx : (x.id == A.id && x.studentId == uid) = true
    · have hxA : x = A := by
        apply huniq x (List.mem_cons_self _ _)
        simp only [Bool.and_eq_true, beq_iff_eq] at hx
        exact hx.1
      subst hxA
      have hz := c3_count_zero tid uid x.id xs
        (fun a ha h => hall a (List.mem_cons_of_mem _ ha) h)
      rw [updateFirst_cons_pos (fun a => a.id == x.id && a.studentId == uid)
        (fun a => { a with applyStatus := "selected_pending_payment",
                           selectedAt := some now }) x xs hx,
        updateMany_cons, List.countP_cons, hz]
      simp [hAt, inSelectedSet]
    · have hxne : x ≠ A := by
        intro hc
        subst hc
        simp [hAs] at hx
      have hAxs : A ∈ xs := by
        rcases List.mem_cons.mp hA with hc | hc
        · exact absurd hc.symm hxne
        · exact hc
      have ih' := ih (fun a ha h => hall a (List.mem_cons_of_mem _ ha) h)
        (fun y hy hyid => huniq y (List.mem_cons_of_mem _ hy) hyid) hAxs
      have hx' : (x.id == A.id && x.studentId == uid) = false := by simpa using hx
      rw [updateFirst_cons_neg (fun a => a.id == A.id && a.studentId == uid)
        (fun a => { a with applyStatus := "selected_pending_payment",
                           selectedAt := some now }) x xs hx',
        updateMany_cons, List.countP_cons, ih']
      by_cases hxt : x.tuitionId = tid
      · obtain ⟨hxp, hxs⟩ := hall x (List.mem_cons_self _ _) hxt
        have hxid : x.id ≠ A.id := by
          intro hc
          exact hxne (huniq x (List.mem_cons_self _ _) hc)
        simp [hxt, hxp, hxs, hxid, inSelectedSet]
      · simp [hxt]

/-- C3 (amended): the generic application-status setter does not preserve
the selection-uniqueness invariant (see the counterexample); what the
select operation does guarantee is: from a store where every application of
listing `tid` is `pending` (and carries the caller as `studentId`),
selecting application `A` of that listing leaves exactly one application
with `tuitionId = tid` in `{selected_pending_payment, selected}`. -/
theorem C3_select_unique_selection
    (s : DB) (uid now tid : Nat) (A : Application)
    (hA : A ∈ s.applications) (hAt : A.tuitionId = tid)
    (hAuniq : ∀ x ∈ s.applications, x.id = A.id → x = A)
    (hall : ∀ a ∈ s.applications, a.tuitionId = tid →
        a.applyStatus = "pending" ∧ a.studentId = uid) :
    ((selectApplications uid "student" A.id now s).db.applications.countP
       (fun a => a.tuitionId == tid && inSelectedSet a.applyStatus)) = 1 := by
  have hAs : A.studentId = uid := (hall A hA hAt).2
  have hfind : s.applications.find? (fun a => a.id == A.id && a.studentId == uid) = some A := by
    apply find?_eq_of_unique _ _ _ hA (by simp [hAs])
    intro x hx hpx
    simp only [Bool.and_eq_true, beq_iff_eq] at hpx
    exact hAuniq x hx hpx.1
  simp only [selectApplications, bne_self_eq_false, Bool.false_eq_true, if_false, hfind]
  rw [hAt]
  exact c3_count_main tid uid now A s.applications hall hAuniq hA hAt hAs

/-- C3 witness: selecting application 2 on the concrete store `dbABC`
leaves exactly one application of listing 1 in a selected state. -/
theorem C3_witness :
    ((selectApplications 10 "student" 2 5 dbABC).db.applications.countP
       (fun a => a.tuitionId == 1 && inSelectedSet a.applyStatus)) = 1 :=
  C3_select_unique_selection dbABC 10 5 1 appA
    (by decide) (by decide) (by decide) (by decide)

end EduBridge
